import Mathlib

/-!
Shallow embedding of `src/main.go` of ReLLoMine/simple-crud-go: a minimal
HTTP front-end mapping request paths to documents of a single collection.
JSON values are modelled by an inductive type, Go maps (`map[string]any`)
by association lists where lookup returns the first binding, the Mongo
collection by a list of documents, and Go panics (`log.Panic`, nil-map
assignment) by `Except.error`.
-/

set_option autoImplicit false

namespace SimpleCrud

/-- A JSON value as produced by `encoding/json` decoding (numbers modelled
by `Int`; no claim depends on numeric values). -/
inductive Json where
  | null
  | bool (b : Bool)
  | num (n : Int)
  | str (s : String)
  | arr (xs : List Json)
  | obj (fields : List (String × Json))

/-- A decoded `map[string]any` document: string keys to JSON values,
lookup returns the first binding. -/
abbrev Doc := List (String × Json)

/-- The Mongo collection: a multiset of documents, kept as a list in
insertion order. -/
abbrev Store := List Doc

/-- Go map read `d[k]`: the first binding for `k`. -/
def docGet (d : Doc) (k : String) : Option Json :=
  match d with
  | [] => none
  | (k1, v) :: rest => if k1 = k then some v else docGet rest k

/-- Go map write `d[k] = v`: overwrite the binding for `k`, or append it. -/
def setKey (d : Doc) (k : String) (v : Json) : Doc :=
  match d with
  | [] => [(k, v)]
  | (k1, v1) :: rest => if k1 = k then (k, v) :: rest else (k1, v1) :: setKey rest k v

/-- The Mongo filter `bson.D{{Key: "path", Value: path}}`: the document's
`path` field equals the string `p`. -/
def docMatches (p : String) (d : Doc) : Bool :=
  match docGet d "path" with
  | some (Json.str q) => q == p
  | _ => false

/-- `collection.FindOne(ctx, {path: p})`: first document matching the filter,
as wrapped by `getSR` (line 92): `none` stands for `mongo.ErrNoDocuments`. -/
def findOne (s : Store) (p : String) : Option Doc :=
  s.find? (docMatches p)

/-- `collection.InsertOne(ctx, d)`. -/
def insertOne (s : Store) (d : Doc) : Store :=
  s ++ [d]

/-- `collection.ReplaceOne(ctx, {path: p}, d)`: replace the first matching
document with `d`; no match leaves the store unchanged. -/
def replaceOne (s : Store) (p : String) (d : Doc) : Store :=
  match s with
  | [] => []
  | q :: rest => if docMatches p q then d :: rest else q :: replaceOne rest p d

/-- `collection.DeleteOne(ctx, {path: p})`: remove the first matching
document and report `DeletedCount` (0 or 1). -/
def deleteOne (s : Store) (p : String) : Store × Nat :=
  match s with
  | [] => ([], 0)
  | q :: rest =>
    if docMatches p q then (rest, 1)
    else
      let r := deleteOne rest p
      (q :: r.1, r.2)

/-- Modelled from the spec: the document store driver's update-one call is an
external collaborator (the Mongo driver, not under `src/`). Per the spec,
"the update call passes the body document directly as the update document, so
callers must supply an update-operator-shaped body when the target already
exists, or the operation fails": an update document is operator-shaped when it
is non-empty and every top-level key begins with the dollar character. -/
def keyBeginsWithDollar (k : String) : Bool :=
  match k.data with
  | [] => false
  | c :: _ => c == '$'

/-- Modelled from the spec: an update document is operator-shaped when it is
non-empty and every top-level key begins with the dollar character. -/
def isUpdateOperatorShaped (u : Doc) : Bool :=
  !u.isEmpty && u.all (fun kv => keyBeginsWithDollar kv.1)

/-- Modelled from the spec: the effect of an accepted field-level update
specification on one document — each field of a top-level set-operator entry
is written into the document. -/
def applyUpdateOps (d : Doc) (u : Doc) : Doc :=
  u.foldl
    (fun acc kv =>
      match kv with
      | ("$set", Json.obj fields) => fields.foldl (fun a f => setKey a f.1 f.2) acc
      | _ => acc)
    d

/-- Apply an accepted update specification to the first matching document. -/
def updateFirst (s : Store) (p : String) (u : Doc) : Store :=
  match s with
  | [] => []
  | q :: rest => if docMatches p q then applyUpdateOps q u :: rest else q :: updateFirst rest p u

/-- Modelled from the spec: `collection.UpdateOne(ctx, {path: p}, u)` of the
external store driver. It rejects an update document that is not
update-operator-shaped, returning the driver's error text; on acceptance it
updates the first matching document. -/
def updateOne (s : Store) (p : String) (u : Doc) : Except String Store :=
  if isUpdateOperatorShaped u then Except.ok (updateFirst s p u)
  else Except.error "update document must contain key beginning with dollar"

/-- A repository result: the response body (a document) and the HTTP status
code, as in the Go `(map[string]any, int)` return pair. -/
abbrev Envelope := Doc × Int

/-- `makeResponse` (line 59): the uniform `{message, status}` envelope. -/
def makeResponse (err : String) (code : Int) : Envelope :=
  ([("message", Json.str err), ("status", Json.num code)], code)

/-- `getItem` (line 105): return the stored document for `path` with 200,
or a "No item found" envelope with 404. -/
def getItem (s : Store) (path : String) : Envelope :=
  match findOne s path with
  | none => makeResponse "No item found" 404
  | some i => (i, 200)

/-- Go map assignment `data[k] = v` where `data` may be the nil map
(`none`): assigning to a nil map panics. -/
def mapAssign (data : Option Doc) (k : String) (v : Json) : Except String Doc :=
  match data with
  | none => Except.error "assignment to entry in nil map"
  | some d => Except.ok (setKey d k v)

/-- `createOrOverwriteItem` (line 118): inject `path` into the body, then
insert when no document matches, else replace the matching document; always
answer "Ok" / 200. A nil body panics at the `data["path"] = path`
assignment (`Except.error`). -/
def createOrOverwriteItem (s : Store) (path : String) (data : Option Doc) :
    Except String (Store × Envelope) :=
  match mapAssign data "path" (Json.str path) with
  | Except.error e => Except.error e
  | Except.ok d =>
    match findOne s path with
    | none => Except.ok (insertOne s d, makeResponse "Ok" 200)
    | some _ => Except.ok (replaceOne s path d, makeResponse "Ok" 200)

/-- `createOrUpdateItem` (line 137): inject `path` into the body, then insert
when no document matches, else hand the mutated body to the store's
update-one call; a rejected update answers the store's error text with 400
and leaves the store unchanged. A nil body panics at the
`data["path"] = path` assignment. -/
def createOrUpdateItem (s : Store) (path : String) (data : Option Doc) :
    Except String (Store × Envelope) :=
  match mapAssign data "path" (Json.str path) with
  | Except.error e => Except.error e
  | Except.ok d =>
    match findOne s path with
    | none => Except.ok (insertOne s d, makeResponse "Ok" 200)
    | some _ =>
      match updateOne s path d with
      | Except.error e => Except.ok (s, makeResponse e 400)
      | Except.ok s1 => Except.ok (s1, makeResponse "Ok" 200)

/-- `deleteItem` (line 156): delete-one by path and answer
`Deleted count: N` with 200, whatever `N` is. -/
def deleteItem (s : Store) (path : String) : Store × Envelope :=
  let r := deleteOne s path
  (r.1, makeResponse ("Deleted count: " ++ toString r.2) 200)

/-- The observable outcomes of reading an HTTP request body: empty, non-empty
but not decodable into a JSON object by `json.Unmarshal`, or a decoded JSON
object. -/
inductive Body where
  | empty
  | invalid
  | valid (d : Doc)

/-- `readBody` (line 74): an empty body yields the nil map (`none`), an
undecodable body yields the `json.Unmarshal` error, a decodable body yields
the decoded object. -/
def readBody (b : Body) : Except Unit (Option Doc) :=
  match b with
  | Body.empty => Except.ok none
  | Body.invalid => Except.error ()
  | Body.valid d => Except.ok (some d)

/-- `mainHandler` (line 168): parse the body, answer "Error reading JSON
body" / 400 on a parse error, else dispatch on the HTTP method string;
unrecognized methods answer "Unsupported method" / 400. The result is the
final store plus the written envelope, or a panic message when the request
aborted without a response. -/
def mainHandler (s : Store) (method : String) (path : String) (body : Body) :
    Except String (Store × Envelope) :=
  match readBody body with
  | Except.error _ => Except.ok (s, makeResponse "Error reading JSON body" 400)
  | Except.ok b =>
    match method with
    | "GET" => Except.ok (s, getItem s path)
    | "POST" => createOrUpdateItem s path b
    | "PUT" => createOrOverwriteItem s path b
    | "DELETE" => Except.ok (deleteItem s path)
    | _ => Except.ok (s, makeResponse "Unsupported method" 400)

/-- Number of stored documents whose `path` field equals `p`. The code's
data-model invariant is `matchCount s p ≤ 1` for every `p`. -/
def matchCount (s : Store) (p : String) : Nat :=
  (s.filter (docMatches p)).length

/-! ### Helper lemmas about the store primitives -/

@[simp]
theorem findOne_nil (p : String) : findOne [] p = none := rfl

@[simp]
theorem findOne_cons (q : Doc) (rest : Store) (p : String) :
    findOne (q :: rest) p = if docMatches p q then some q else findOne rest p := by
  simp [findOne, List.find?]
  cases docMatches p q <;> simp

theorem docGet_setKey_self (d : Doc) (k : String) (v : Json) :
    docGet (setKey d k v) k = some v := by
  induction d with
  | nil => simp [setKey, docGet]
  | cons kv rest ih =>
    obtain ⟨k1, v1⟩ := kv
    by_cases h : k1 = k
    · simp [setKey, h, docGet]
    · simp [setKey, h, docGet, ih]

theorem docMatches_setKey_path (p : String) (d : Doc) :
    docMatches p (setKey d "path" (Json.str p)) = true := by
  simp [docMatches, docGet_setKey_self]

theorem findOne_eq_none_iff (s : Store) (p : String) :
    findOne s p = none ↔ s.filter (docMatches p) = [] := by
  induction s with
  | nil => simp
  | cons q rest ih =>
    cases hq : docMatches p q with
    | false => simpa [List.filter_cons, hq] using ih
    | true => simp [List.filter_cons, hq]

theorem findOne_of_filter_singleton (s : Store) (p : String) (d : Doc)
    (h : s.filter (docMatches p) = [d]) : findOne s p = some d := by
  induction s with
  | nil => simp at h
  | cons q rest ih =>
    cases hq : docMatches p q with
    | false =>
      rw [List.filter_cons] at h
      simp [hq] at h
      simp [hq, ih h]
    | true =>
      rw [List.filter_cons] at h
      simp [hq] at h
      obtain ⟨h1, h2⟩ := h
      subst h1
      simp [hq]

theorem insertOne_filter (s : Store) (p : String) (d : Doc)
    (hs : s.filter (docMatches p) = []) (hd : docMatches p d = true) :
    (insertOne s d).filter (docMatches p) = [d] := by
  simp [insertOne, List.filter_append, hs, List.filter_cons, hd]

theorem replaceOne_filter (s : Store) (p : String) (d q : Doc)
    (hinv : (s.filter (docMatches p)).length ≤ 1)
    (hf : findOne s p = some q) (hd : docMatches p d = true) :
    (replaceOne s p d).filter (docMatches p) = [d] := by
  induction s with
  | nil => simp at hf
  | cons r rest ih =>
    cases hr : docMatches p r with
    | false =>
      rw [List.filter_cons] at hinv
      simp [hr] at hinv hf
      simp [replaceOne, hr, List.filter_cons, ih hinv hf]
    | true =>
      rw [List.filter_cons, if_pos hr, List.length_cons] at hinv
      have hrest : rest.filter (docMatches p) = [] := List.length_eq_zero.mp (by omega)
      simp [replaceOne, hr, List.filter_cons, hd, hrest]

theorem replaceOne_self (s : Store) (p : String) (d : Doc)
    (h : s.filter (docMatches p) = [d]) : replaceOne s p d = s := by
  induction s with
  | nil => simp at h
  | cons q rest ih =>
    cases hq : docMatches p q with
    | false =>
      rw [List.filter_cons] at h
      simp [hq] at h
      simp [replaceOne, hq, ih h]
    | true =>
      rw [List.filter_cons] at h
      simp [hq] at h
      obtain ⟨h1, h2⟩ := h
      subst h1
      simp [replaceOne, hq]

theorem deleteOne_of_none (s : Store) (p : String) (h : findOne s p = none) :
    deleteOne s p = (s, 0) := by
  induction s with
  | nil => rfl
  | cons q rest ih =>
    cases hq : docMatches p q with
    | false =>
      simp [hq] at h
      simp [deleteOne, hq, ih h]
    | true => simp [hq] at h

theorem deleteOne_of_found (s : Store) (p : String) (q : Doc)
    (hinv : (s.filter (docMatches p)).length ≤ 1)
    (hf : findOne s p = some q) :
    (deleteOne s p).2 = 1 ∧ findOne (deleteOne s p).1 p = none := by
  induction s with
  | nil => simp at hf
  | cons r rest ih =>
    cases hr : docMatches p r with
    | false =>
      rw [List.filter_cons] at hinv
      simp [hr] at hinv hf
      have := ih hinv hf
      simp [deleteOne, hr, this.1, this.2]
    | true =>
      rw [List.filter_cons, if_pos hr, List.length_cons] at hinv
      have hrest : rest.filter (docMatches p) = [] := List.length_eq_zero.mp (by omega)
      simp [deleteOne, hr, (findOne_eq_none_iff rest p).mpr hrest]

theorem setKey_mem (d : Doc) (k : String) (v : Json) : (k, v) ∈ setKey d k v := by
  induction d with
  | nil => simp [setKey]
  | cons kv rest ih =>
    obtain ⟨k1, v1⟩ := kv
    by_cases h : k1 = k
    · simp [setKey, h]
    · simp only [setKey, if_neg h, List.mem_cons]
      exact Or.inr ih

theorem isUpdateOperatorShaped_setKey_path (b : Doc) (v : Json) :
    isUpdateOperatorShaped (setKey b "path" v) = false := by
  have hmem := setKey_mem b "path" v
  have hall : (setKey b "path" v).all (fun kv => keyBeginsWithDollar kv.1) = false := by
    cases hcase : (setKey b "path" v).all (fun kv => keyBeginsWithDollar kv.1) with
    | false => rfl
    | true =>
      have hdollar : keyBeginsWithDollar "path" = true := by
        simpa using List.all_eq_true.mp hcase _ hmem
      exact absurd hdollar (by decide)
  simp [isUpdateOperatorShaped, hall]

theorem updateOne_setKey_path_rejected (s : Store) (p : String) (b : Doc) (v : Json) :
    updateOne s p (setKey b "path" v) =
      Except.error "update document must contain key beginning with dollar" := by
  simp [updateOne, isUpdateOperatorShaped_setKey_path]

/-- Effect of one `createOrOverwriteItem` call on the documents matching `p`:
it answers Ok / 200 and leaves exactly the injected document for `p`. -/
theorem put_effect (s : Store) (p : String) (c : Doc)
    (hinv : (s.filter (docMatches p)).length ≤ 1) :
    ∃ s1, createOrOverwriteItem s p (some c) = Except.ok (s1, makeResponse "Ok" 200) ∧
      s1.filter (docMatches p) = [setKey c "path" (Json.str p)] := by
  cases hf : findOne s p with
  | none =>
    exact ⟨insertOne s (setKey c "path" (Json.str p)),
      by simp [createOrOverwriteItem, mapAssign, hf],
      insertOne_filter s p _ ((findOne_eq_none_iff s p).mp hf) (docMatches_setKey_path p c)⟩
  | some q =>
    exact ⟨replaceOne s p (setKey c "path" (Json.str p)),
      by simp [createOrOverwriteItem, mapAssign, hf],
      replaceOne_filter s p _ q hinv hf (docMatches_setKey_path p c)⟩

/-! ### Claim theorems -/

/-- C2: `Get(p)` returns the stored document for `p` with status 200 when a
document with `path` field equal to `p` exists, and the "No item found"
envelope with 404 when none does; in particular on the empty store (before
any write) it returns 404. -/
theorem getItem_spec (s : Store) (p : String) :
    (∀ d, findOne s p = some d → getItem s p = (d, 200)) ∧
    (findOne s p = none → getItem s p = makeResponse "No item found" 404) ∧
    getItem ([] : Store) p = makeResponse "No item found" 404 := by
  refine ⟨fun d hd => ?_, fun hn => ?_, rfl⟩
  · simp [getItem, hd]
  · simp [getItem, hn]

/-- Witness for C2 at a one-document store and at the empty store. -/
theorem getItem_spec_witness :
    getItem [[("path", Json.str "a"), ("x", Json.num 1)]] "a" =
      ([("path", Json.str "a"), ("x", Json.num 1)], 200) ∧
    getItem ([] : Store) "a" = makeResponse "No item found" 404 :=
  ⟨(getItem_spec [[("path", Json.str "a"), ("x", Json.num 1)]] "a").1
      [("path", Json.str "a"), ("x", Json.num 1)] rfl,
    (getItem_spec [] "a").2.1 rfl⟩

/-- C5: a non-empty body that does not decode as a JSON object yields the
"Error reading JSON body" / 400 envelope on every method and path, the store
untouched (no repository operation runs). -/
theorem mainHandler_invalid_body (s : Store) (method path : String) :
    mainHandler s method path Body.invalid =
      Except.ok (s, makeResponse "Error reading JSON body" 400) := rfl

/-- C9: an empty request body decodes to the nil map, and a PUT or POST then
panics at the `data["path"] = path` assignment to the nil map, aborting the
request with no envelope written. -/
theorem mainHandler_empty_body_panics (s : Store) (p : String) :
    readBody Body.empty = Except.ok none ∧
    mainHandler s "PUT" p Body.empty = Except.error "assignment to entry in nil map" ∧
    mainHandler s "POST" p Body.empty = Except.error "assignment to entry in nil map" :=
  ⟨rfl, rfl, rfl⟩

/-- C8: on a path with no existing document, POST (`createOrUpdateItem`) and
PUT (`createOrOverwriteItem`) coincide: both insert the body with the `path`
field injected and answer Ok / 200. -/
theorem createOrUpdateItem_eq_overwrite_on_absent (s : Store) (p : String) (b : Doc)
    (h : findOne s p = none) :
    createOrUpdateItem s p (some b) = createOrOverwriteItem s p (some b) ∧
    createOrUpdateItem s p (some b) =
      Except.ok (insertOne s (setKey b "path" (Json.str p)), makeResponse "Ok" 200) := by
  constructor <;> simp [createOrUpdateItem, createOrOverwriteItem, mapAssign, h]

/-- Witness for C8 at the empty store. -/
theorem createOrUpdateItem_eq_overwrite_on_absent_witness :
    findOne ([] : Store) "a" = none ∧
    createOrUpdateItem ([] : Store) "a" (some [("x", Json.num 1)]) =
      createOrOverwriteItem ([] : Store) "a" (some [("x", Json.num 1)]) :=
  ⟨rfl, (createOrUpdateItem_eq_overwrite_on_absent [] "a" [("x", Json.num 1)] rfl).1⟩

/-- C3: on a path with an existing document, when the store's update call
rejects the update document, POST answers the store's error text with 400
and the store is unchanged. -/
theorem createOrUpdateItem_rejected (s : Store) (p : String) (u q : Doc) (e : String)
    (hex : findOne s p = some q)
    (hrej : updateOne s p (setKey u "path" (Json.str p)) = Except.error e) :
    createOrUpdateItem s p (some u) = Except.ok (s, makeResponse e 400) := by
  simp [createOrUpdateItem, mapAssign, hex, hrej]

/-- Witness for C3 at a one-document store and a plain-field update body. -/
theorem createOrUpdateItem_rejected_witness :
    findOne [[("path", Json.str "a")]] "a" = some [("path", Json.str "a")] ∧
    updateOne [[("path", Json.str "a")]] "a" (setKey [("x", Json.num 1)] "path" (Json.str "a")) =
      Except.error "update document must contain key beginning with dollar" ∧
    createOrUpdateItem [[("path", Json.str "a")]] "a" (some [("x", Json.num 1)]) =
      Except.ok ([[("path", Json.str "a")]],
        makeResponse "update document must contain key beginning with dollar" 400) :=
  ⟨rfl, rfl,
    createOrUpdateItem_rejected [[("path", Json.str "a")]] "a" [("x", Json.num 1)]
      [("path", Json.str "a")] "update document must contain key beginning with dollar" rfl rfl⟩

/-- C10: on a path with an existing document, POST does not hand the body
directly to the store's update call: the update document is the body with
the top-level entry `path = p` inserted, so it always carries a
non-operator-shaped top-level `path` key. -/
theorem createOrUpdateItem_update_document (s : Store) (p : String) (b q : Doc)
    (hex : findOne s p = some q) :
    createOrUpdateItem s p (some b) =
      (match updateOne s p (setKey b "path" (Json.str p)) with
        | Except.error e => Except.ok (s, makeResponse e 400)
        | Except.ok s1 => Except.ok (s1, makeResponse "Ok" 200)) ∧
    docGet (setKey b "path" (Json.str p)) "path" = some (Json.str p) ∧
    isUpdateOperatorShaped (setKey b "path" (Json.str p)) = false := by
  refine ⟨?_, docGet_setKey_self _ _ _, isUpdateOperatorShaped_setKey_path _ _⟩
  simp [createOrUpdateItem, mapAssign, hex]

/-- Witness for C10 at a one-document store. -/
theorem createOrUpdateItem_update_document_witness :
    findOne [[("path", Json.str "a")]] "a" = some [("path", Json.str "a")] ∧
    docGet (setKey [("x", Json.num 1)] "path" (Json.str "a")) "path" = some (Json.str "a") ∧
    isUpdateOperatorShaped (setKey [("x", Json.num 1)] "path" (Json.str "a")) = false :=
  ⟨rfl,
    (createOrUpdateItem_update_document [[("path", Json.str "a")]] "a" [("x", Json.num 1)]
      [("path", Json.str "a")] rfl).2.1,
    (createOrUpdateItem_update_document [[("path", Json.str "a")]] "a" [("x", Json.num 1)]
      [("path", Json.str "a")] rfl).2.2⟩

/-- C1: under the at-most-one-document-per-path invariant, PUT inserts the
body when no document exists for `p` and replaces the existing one otherwise,
always answers Ok / 200, and afterwards exactly one document matches `p`,
namely the body with `path = p` injected (so a Get returns it with 200). -/
theorem createOrOverwriteItem_spec (s : Store) (p : String) (b : Doc)
    (hinv : matchCount s p ≤ 1) :
    ∃ s1,
      createOrOverwriteItem s p (some b) = Except.ok (s1, makeResponse "Ok" 200) ∧
      (findOne s p = none → s1 = insertOne s (setKey b "path" (Json.str p))) ∧
      (∀ q, findOne s p = some q → s1 = replaceOne s p (setKey b "path" (Json.str p))) ∧
      s1.filter (docMatches p) = [setKey b "path" (Json.str p)] ∧
      getItem s1 p = (setKey b "path" (Json.str p), 200) := by
  cases hf : findOne s p with
  | none =>
    have hfil := insertOne_filter s p (setKey b "path" (Json.str p))
      ((findOne_eq_none_iff s p).mp hf) (docMatches_setKey_path p b)
    refine ⟨insertOne s (setKey b "path" (Json.str p)), ?_, fun _ => rfl, ?_, hfil, ?_⟩
    · simp [createOrOverwriteItem, mapAssign, hf]
    · intro q hq
      simp at hq
    · simp [getItem, findOne_of_filter_singleton _ _ _ hfil]
  | some q0 =>
    have hfil := replaceOne_filter s p (setKey b "path" (Json.str p)) q0 hinv hf
      (docMatches_setKey_path p b)
    refine ⟨replaceOne s p (setKey b "path" (Json.str p)), ?_, ?_, fun q hq => rfl, hfil, ?_⟩
    · simp [createOrOverwriteItem, mapAssign, hf]
    · intro hn
      simp at hn
    · simp [getItem, findOne_of_filter_singleton _ _ _ hfil]

/-- Witness for C1 at the empty store. -/
theorem createOrOverwriteItem_spec_witness :
    matchCount ([] : Store) "a" ≤ 1 ∧
    ∃ s1,
      createOrOverwriteItem ([] : Store) "a" (some [("x", Json.num 1)]) =
        Except.ok (s1, makeResponse "Ok" 200) ∧
      (findOne ([] : Store) "a" = none →
        s1 = insertOne [] (setKey [("x", Json.num 1)] "path" (Json.str "a"))) ∧
      (∀ q, findOne ([] : Store) "a" = some q →
        s1 = replaceOne [] "a" (setKey [("x", Json.num 1)] "path" (Json.str "a"))) ∧
      s1.filter (docMatches "a") = [setKey [("x", Json.num 1)] "path" (Json.str "a")] ∧
      getItem s1 "a" = (setKey [("x", Json.num 1)] "path" (Json.str "a"), 200) :=
  ⟨by decide, createOrOverwriteItem_spec [] "a" [("x", Json.num 1)] (by decide)⟩

/-- C4: under the at-most-one-document-per-path invariant, DELETE answers
"Deleted count: 1" / 200 when a document for `p` existed (and a subsequent
Get answers 404), and "Deleted count: 0" / 200 when none existed; the status
is 200 in both cases. -/
theorem deleteItem_spec (s : Store) (p : String) (hinv : matchCount s p ≤ 1) :
    (∀ q, findOne s p = some q →
      deleteItem s p = ((deleteOne s p).1, makeResponse "Deleted count: 1" 200) ∧
      getItem (deleteItem s p).1 p = makeResponse "No item found" 404) ∧
    (findOne s p = none →
      deleteItem s p = (s, makeResponse "Deleted count: 0" 200)) := by
  constructor
  · intro q hq
    have hd := deleteOne_of_found s p q hinv hq
    constructor
    · rw [show deleteItem s p =
          ((deleteOne s p).1, makeResponse ("Deleted count: " ++ toString (deleteOne s p).2) 200)
          from rfl, hd.1]
      rfl
    · simp [deleteItem, getItem, hd.2]
  · intro hn
    have hstr : ("Deleted count: " ++ toString (0 : Nat)) = "Deleted count: 0" := rfl
    simp [deleteItem, deleteOne_of_none s p hn, hstr]

/-- Witness for C4 at a one-document store and at the empty store. -/
theorem deleteItem_spec_witness :
    matchCount [[("path", Json.str "a")]] "a" ≤ 1 ∧
    deleteItem [[("path", Json.str "a")]] "a" = (([] : Store), makeResponse "Deleted count: 1" 200) ∧
    deleteItem ([] : Store) "b" = (([] : Store), makeResponse "Deleted count: 0" 200) := by
  refine ⟨by decide, ?_, ?_⟩
  · exact ((deleteItem_spec [[("path", Json.str "a")]] "a" (by decide)).1
      [("path", Json.str "a")] rfl).1
  · exact (deleteItem_spec [] "b" (by decide)).2 rfl

/-- C7: under the at-most-one-document-per-path invariant, PUT `bodyA` then
PUT `bodyB` leaves the document `bodyB` with `path = p` injected (full
replace, nothing of `bodyA` kept), a Get returns it with 200, and repeating
the final PUT leaves the store (hence the Get result) unchanged. -/
theorem createOrOverwriteItem_idempotent (s : Store) (p : String) (a b : Doc)
    (hinv : matchCount s p ≤ 1) :
    ∃ s1 s2,
      createOrOverwriteItem s p (some a) = Except.ok (s1, makeResponse "Ok" 200) ∧
      createOrOverwriteItem s1 p (some b) = Except.ok (s2, makeResponse "Ok" 200) ∧
      getItem s2 p = (setKey b "path" (Json.str p), 200) ∧
      createOrOverwriteItem s2 p (some b) = Except.ok (s2, makeResponse "Ok" 200) := by
  obtain ⟨s1, h1, hf1⟩ := put_effect s p a hinv
  have hinv1 : (s1.filter (docMatches p)).length ≤ 1 := by rw [hf1]; simp
  obtain ⟨s2, h2, hf2⟩ := put_effect s1 p b hinv1
  have hfind2 : findOne s2 p = some (setKey b "path" (Json.str p)) :=
    findOne_of_filter_singleton _ _ _ hf2
  refine ⟨s1, s2, h1, h2, ?_, ?_⟩
  · simp [getItem, hfind2]
  · simp [createOrOverwriteItem, mapAssign, hfind2, replaceOne_self _ _ _ hf2]

/-- Witness for C7 at the empty store with two distinct bodies. -/
theorem createOrOverwriteItem_idempotent_witness :
    matchCount ([] : Store) "a" ≤ 1 ∧
    ∃ s1 s2,
      createOrOverwriteItem ([] : Store) "a" (some [("x", Json.num 1)]) =
        Except.ok (s1, makeResponse "Ok" 200) ∧
      createOrOverwriteItem s1 "a" (some [("y", Json.num 2)]) =
        Except.ok (s2, makeResponse "Ok" 200) ∧
      getItem s2 "a" = (setKey [("y", Json.num 2)] "path" (Json.str "a"), 200) ∧
      createOrOverwriteItem s2 "a" (some [("y", Json.num 2)]) =
        Except.ok (s2, makeResponse "Ok" 200) :=
  ⟨by decide,
    createOrOverwriteItem_idempotent [] "a" [("x", Json.num 1)] [("y", Json.num 2)] (by decide)⟩

/-- C6 counterexample: a PATCH request whose body is non-empty invalid JSON
answers "Error reading JSON body", not "Unsupported method", so the
unsupported-method envelope is not independent of the request body. -/
theorem mainHandler_unsupported_counterexample :
    mainHandler [] "PATCH" "/x" Body.invalid =
      Except.ok ([], makeResponse "Error reading JSON body" 400) ∧
    mainHandler [] "PATCH" "/x" Body.invalid ≠
      Except.ok ([], makeResponse "Unsupported method" 400) := by
  refine ⟨rfl, ?_⟩
  intro h
  rw [show mainHandler [] "PATCH" "/x" Body.invalid =
      Except.ok ([], makeResponse "Error reading JSON body" 400) from rfl] at h
  simp [makeResponse] at h

/-- C6 (amended): a request whose method is none of GET, POST, PUT, DELETE
answers the "Unsupported method" / 400 envelope independent of path and of
the request body, provided the body is empty or decodes as a JSON object; a
non-empty undecodable body instead answers the JSON-body error. -/
theorem mainHandler_unsupported (s : Store) (method path : String) (body : Body)
    (h1 : method ≠ "GET") (h2 : method ≠ "POST") (h3 : method ≠ "PUT")
    (h4 : method ≠ "DELETE") (hb : body ≠ Body.invalid) :
    mainHandler s method path body = Except.ok (s, makeResponse "Unsupported method" 400) := by
  cases body with
  | invalid => exact absurd rfl hb
  | empty => simp only [mainHandler, readBody]
  | valid d => simp only [mainHandler, readBody]

/-- Witness for the amended C6 at method PATCH with an empty body. -/
theorem mainHandler_unsupported_witness :
    mainHandler [] "PATCH" "/x" Body.empty =
      Except.ok ([], makeResponse "Unsupported method" 400) :=
  mainHandler_unsupported [] "PATCH" "/x" Body.empty (by decide) (by decide) (by decide)
    (by decide) (by simp)

end SimpleCrud
